import Mathlib

/-!
Verification of the `sx` package (nested `database/sql` transaction helpers).

The embedding models the underlying database as an explicit state carrying a
trace of the physical operations performed on it (begin / commit / rollback),
together with injectable errors for each physical operation.  The three
wrapper types of the source (`dbTransactor`, `nestableTransactor`,
`nestedTransactor`) become the constructors of `Transactor`; their methods,
the orchestrator `Transaction` and the factory `NewTransactor` are translated
directly from `src/sx.go`.  Go `error` values are modelled as `Option String`
(`none` = nil); Go panic values as `GoAny` (`GoAny.nilV` = a literal nil
panic value, with pre-Go-1.21 `recover` semantics).
-/

namespace Sx

/-- A Go panic value (`interface\x7b\x7d`): nil, a string, or an integer. -/
inductive GoAny where
  | nilV : GoAny
  | str : String → GoAny
  | int : Int → GoAny
deriving Repr, DecidableEq

/-- Physical operations performed on the underlying database, as recorded in
the trace: a successful physical begin allocating a fresh transaction id, a
failed physical begin attempt, and physical commit / rollback of a given
transaction. -/
inductive Event where
  | pBegin : Nat → Event
  | pBeginFail : Event
  | pCommit : Nat → Event
  | pRollback : Nat → Event
deriving Repr, DecidableEq

/-- State of the underlying database: the next fresh physical transaction id,
the trace of physical operations performed so far, and the error (if any)
that each kind of physical operation currently returns. -/
structure DBState where
  nextTx : Nat
  trace : List Event
  beginErr : Option String
  commitErr : Option String
  rollbackErr : Option String
deriving Repr, DecidableEq

/-- Physical `(*sql.DB).Begin`: fails with `beginErr` when it is set,
otherwise allocates a fresh transaction id and records the begin. -/
def physBegin (s : DBState) : Except String Nat × DBState :=
  match s.beginErr with
  | some e => (Except.error e, { s with trace := s.trace ++ [Event.pBeginFail] })
  | none =>
      (Except.ok s.nextTx,
        { s with nextTx := s.nextTx + 1, trace := s.trace ++ [Event.pBegin s.nextTx] })

/-- Physical `(*sql.Tx).Commit` on transaction `tx`: records the commit and
returns `commitErr`. -/
def physCommit (s : DBState) (tx : Nat) : Option String × DBState :=
  (s.commitErr, { s with trace := s.trace ++ [Event.pCommit tx] })

/-- Physical `(*sql.Tx).Rollback` on transaction `tx`: records the rollback
and returns `rollbackErr`. -/
def physRollback (s : DBState) (tx : Nat) : Option String × DBState :=
  (s.rollbackErr, { s with trace := s.trace ++ [Event.pRollback tx] })

/-- The three wrapper types implementing `sx.Transactor`:
`dbT` is `*dbTransactor` (wraps `*sql.DB`), `nestableT tx` is
`*nestableTransactor` and `nestedT tx` is `*nestedTransactor`, each wrapping
the physical transaction with id `tx`. -/
inductive Transactor where
  | dbT : Transactor
  | nestableT : Nat → Transactor
  | nestedT : Nat → Transactor
deriving Repr, DecidableEq

namespace Transactor

/-- `Begin` on a wrapper.  `dbTransactor` has no `Begin` of its own: the
promoted `(*sql.DB).Begin` starts a physical transaction.
`nestableTransactor.Begin` and `nestedTransactor.Begin` return the wrapper's
own held `*sql.Tx` and a nil error (`return t.Tx, nil` in the source). -/
def BeginT : Transactor → DBState → Except String Nat × DBState
  | dbT, s => physBegin s
  | nestableT tx, s => (Except.ok tx, s)
  | nestedT tx, s => (Except.ok tx, s)

/-- `Commit` on a wrapper.  `dbTransactor.Commit` and
`nestedTransactor.Commit` are `return nil` no-ops in the source;
`nestableTransactor` has no `Commit` of its own, so the promoted
`(*sql.Tx).Commit` performs the physical commit. -/
def Commit : Transactor → DBState → Option String × DBState
  | dbT, s => (none, s)
  | nestableT tx, s => physCommit s tx
  | nestedT _, s => (none, s)

/-- `Rollback` on a wrapper.  `dbTransactor.Rollback` is a `return nil`
no-op; `nestableTransactor` and `nestedTransactor` use the promoted
`(*sql.Tx).Rollback`, the physical rollback. -/
def Rollback : Transactor → DBState → Option String × DBState
  | dbT, s => (none, s)
  | nestableT tx, s => physRollback s tx
  | nestedT tx, s => physRollback s tx

end Transactor

/-- A handle implementing `sx.Beginner`, i.e. a value that may be passed to
`sx.Transaction`: a raw `*sql.DB`, one of the three wrappers, or some other
user-supplied `Beginner` whose `Begin` returns the given result (a raw
`*sql.Tx` is not a `Beginner` and cannot be passed). -/
inductive BHandle where
  | sqlDB : BHandle
  | trans : Transactor → BHandle
  | otherB : Except String Nat → BHandle
deriving Repr

/-- `Begin` on an `sx.Beginner` handle: physical begin for `*sql.DB`, the
wrapper's own `Begin` for wrappers, and the fixed result for another
`Beginner` implementation. -/
def BHandle.BeginH : BHandle → DBState → Except String Nat × DBState
  | BHandle.sqlDB, s => physBegin s
  | BHandle.trans t, s => Transactor.BeginT t s
  | BHandle.otherB r, s => (r, s)

/-- The type switch of `sx.Transaction` (lines 39-45 of `src/sx.go`):
`case *nestableTransactor, *nestedTransactor: tx = &nestedTransactor\x7bimpl\x7d`,
`default: tx = &nestableTransactor\x7bimpl\x7d`. -/
def mkWrapper (db : BHandle) (impl : Nat) : Transactor :=
  match db with
  | BHandle.trans (Transactor.nestableT _) => Transactor.nestedT impl
  | BHandle.trans (Transactor.nestedT _) => Transactor.nestedT impl
  | _ => Transactor.nestableT impl

/-- Outcome of running a Go function that may return an error or panic:
`ret none` is a nil-error return, `ret (some e)` an error return, and
`panicked v` a panic with value `v`. -/
inductive Outcome where
  | ret : Option String → Outcome
  | panicked : GoAny → Outcome
deriving Repr, DecidableEq

/-- An action `func(Transactor) error`, as a state-passing function that may
itself perform database operations (e.g. nested `Transaction` calls). -/
def Action : Type := Transactor → DBState → Outcome × DBState

/-- `sx.Transaction` (lines 32-62 of `src/sx.go`): begin on the handle,
returning the begin error at once if it fails; classify the handle by the
type switch to build the wrapper; run the action; on a panic the deferred
guard recovers, and when the recovered value is non-nil it rolls back
(discarding the rollback error) and re-panics with the same value, while a
nil recovered value (pre-Go-1.21 `panic(nil)`) leaves the guard idle and the
recovered function returns the zero-value nil error; on an error return it
rolls back (discarding the rollback error) and returns the action's error;
otherwise it commits and returns the commit's error. -/
def Transaction (db : BHandle) (action : Action) (s : DBState) : Outcome × DBState :=
  match BHandle.BeginH db s with
  | (Except.error err, s1) => (Outcome.ret (some err), s1)
  | (Except.ok impl, s1) =>
      let tx := mkWrapper db impl
      match action tx s1 with
      | (Outcome.panicked r, s2) =>
          if r = GoAny.nilV then
            (Outcome.ret none, s2)
          else
            (Outcome.panicked r, (Transactor.Rollback tx s2).2)
      | (Outcome.ret (some err), s2) =>
          (Outcome.ret (some err), (Transactor.Rollback tx s2).2)
      | (Outcome.ret none, s2) =>
          let c := Transactor.Commit tx s2
          (Outcome.ret c.1, c.2)

/-- A handle implementing `sx.Executor`, i.e. a value that may be passed to
`sx.NewTransactor`: `*sql.DB`, `*sql.Tx`, one of the three wrappers, or some
other `Executor` whose Go dynamic type name is the given string. -/
inductive EHandle where
  | sqlDB : EHandle
  | sqlTx : Nat → EHandle
  | dbT : EHandle
  | nestableT : Nat → EHandle
  | nestedT : Nat → EHandle
  | otherE : String → EHandle
deriving Repr, DecidableEq

/-- The Go `%T` dynamic type name of an `Executor` handle. -/
def EHandle.typeName : EHandle → String
  | EHandle.sqlDB => "*sql.DB"
  | EHandle.sqlTx _ => "*sql.Tx"
  | EHandle.dbT => "*sx.dbTransactor"
  | EHandle.nestableT _ => "*sx.nestableTransactor"
  | EHandle.nestedT _ => "*sx.nestedTransactor"
  | EHandle.otherE n => n

/-- Result of `sx.NewTransactor`: either a constructed wrapper, or an
unconditional abort (Go `panic`) with the formatted message. -/
inductive FactoryResult where
  | ok : Transactor → FactoryResult
  | panicked : String → FactoryResult
deriving Repr, DecidableEq

/-- `sx.NewTransactor` (lines 64-76 of `src/sx.go`): `*sql.DB` becomes a
`dbTransactor`, `*sql.Tx` becomes a `nestableTransactor`, a
`*nestedTransactor` is re-wrapped as a `nestedTransactor` over the same
`Tx`, and every other type panics with
`"unsupported transactor type: %T"`. -/
def NewTransactor : EHandle → FactoryResult
  | EHandle.sqlDB => FactoryResult.ok Transactor.dbT
  | EHandle.sqlTx tx => FactoryResult.ok (Transactor.nestableT tx)
  | EHandle.nestedT tx => FactoryResult.ok (Transactor.nestedT tx)
  | v => FactoryResult.panicked ("unsupported transactor type: " ++ v.typeName)

/-- The action of depth `n`: it returns nil immediately at depth 0, and
otherwise calls `Transaction` again on the `Transactor` it was given, with
the action of depth `n - 1` — the nesting scenario of the spec's testable
properties. -/
def deepAction : Nat → Action
  | 0, _, s => (Outcome.ret none, s)
  | n + 1, tx, s => Transaction (BHandle.trans tx) (deepAction n) s

/-- Whether a trace event is a physical `Begin` invocation on the
database (successful or failed). -/
def Event.isPhysBegin : Event → Bool
  | Event.pBegin _ => true
  | Event.pBeginFail => true
  | _ => false

/-- The number of physical `Begin` invocations recorded in a trace. -/
def physBeginCount (tr : List Event) : Nat :=
  (tr.filter Event.isPhysBegin).length

/-- An initial database state with no failures injected. -/
def initState : DBState :=
  { nextTx := 0, trace := [], beginErr := none, commitErr := none, rollbackErr := none }

/-- A printable name of a wrapper, used by the probing action to report which
wrapper the orchestrator handed to it. -/
def Transactor.showT : Transactor → String
  | Transactor.dbT => "dbTransactor"
  | Transactor.nestableT k => "nestableTransactor " ++ toString k
  | Transactor.nestedT k => "nestedTransactor " ++ toString k

/-- An action that reports the wrapper it was given by returning its name as
the error value (so the orchestrator's classification is observable). -/
def probeA : Action := fun t s => (Outcome.ret (some (Transactor.showT t)), s)

/-- A database state whose physical rollback fails. -/
def rbErrState : DBState := { initState with rollbackErr := some "rb-broken" }

/-- The state right after a successful physical begin on `rbErrState`. -/
def rbErrState1 : DBState :=
  { nextTx := 1, trace := [Event.pBegin 0], beginErr := none, commitErr := none,
    rollbackErr := some "rb-broken" }

/-- The state right after a successful physical begin on `initState`. -/
def initState1 : DBState :=
  { nextTx := 1, trace := [Event.pBegin 0], beginErr := none, commitErr := none,
    rollbackErr := none }

/-- A database state whose physical begin fails. -/
def beginErrState : DBState := { initState with beginErr := some "db down" }

/-- The orchestrator always builds a wrapper whose `Rollback` is the physical
rollback of the begin-returned transaction (both `nestableTransactor` and
`nestedTransactor` use the promoted `(*sql.Tx).Rollback`). -/
theorem Rollback_mkWrapper (db : BHandle) (impl : Nat) (s : DBState) :
    Transactor.Rollback (mkWrapper db impl) s = physRollback s impl := by
  cases db with
  | sqlDB => rfl
  | otherB r => rfl
  | trans t => cases t <;> rfl

/-- A nested-wrapper `Transaction` call of any depth is pure: it begins
nothing physically, commits and rolls back nothing, and returns nil. -/
theorem deepAction_nestedT (n : Nat) (k : Nat) (s : DBState) :
    deepAction n (Transactor.nestedT k) s = (Outcome.ret none, s) := by
  induction n generalizing s with
  | zero => rfl
  | succ m ih =>
      simp [deepAction, Transaction, BHandle.BeginH, Transactor.BeginT, mkWrapper, ih,
        Transactor.Commit]

/-- A nestable-wrapper `Transaction` call of any depth is pure as well: the
inner wrapper it builds is nested, whose commit is a no-op. -/
theorem deepAction_nestableT (n : Nat) (k : Nat) (s : DBState) :
    deepAction n (Transactor.nestableT k) s = (Outcome.ret none, s) := by
  cases n with
  | zero => rfl
  | succ m =>
      simp [deepAction, Transaction, BHandle.BeginH, Transactor.BeginT, mkWrapper,
        deepAction_nestedT, Transactor.Commit]

/-- Claim C1 (commit ownership): `Commit` on the Root wrapper
(`dbTransactor`) and on the Nested wrapper is a no-op returning nil that
leaves the database state untouched; `Rollback` on the Nested wrapper is the
real physical rollback of the shared transaction; only the Nestable
wrapper's `Commit` performs the real physical commit.  Hence an inner nested
scope can abort the shared transaction but can never persist it. -/
theorem commit_ownership (tx : Nat) (s : DBState) :
    Transactor.Commit Transactor.dbT s = (none, s) ∧
    Transactor.Commit (Transactor.nestedT tx) s = (none, s) ∧
    Transactor.Rollback (Transactor.nestedT tx) s = physRollback s tx ∧
    Transactor.Commit (Transactor.nestableT tx) s = physCommit s tx :=
  ⟨rfl, rfl, rfl, rfl⟩

/-- Claim C2 (transaction reuse under nesting): `Begin` on a Nestable and on
a Nested wrapper returns the wrapper's own held transaction with a nil error
and no state change, and an outermost `Transaction` on a pool handle
performs exactly one physical begin regardless of the nesting depth of the
inner `Transaction` calls made through the passed `Transactor`. -/
theorem transaction_reuse_under_nesting :
    (∀ tx s, Transactor.BeginT (Transactor.nestableT tx) s = (Except.ok tx, s)) ∧
    (∀ tx s, Transactor.BeginT (Transactor.nestedT tx) s = (Except.ok tx, s)) ∧
    (∀ n s, s.beginErr = none →
      physBeginCount (Transaction BHandle.sqlDB (deepAction n) s).2.trace =
        physBeginCount s.trace + 1) := by
  refine ⟨fun tx s => rfl, fun tx s => rfl, fun n s h => ?_⟩
  simp [Transaction, BHandle.BeginH, physBegin, h, mkWrapper, deepAction_nestableT,
    Transactor.Commit, physCommit, physBeginCount, Event.isPhysBegin, List.filter_append]

/-- Witness for C2: a depth-3 nesting on a fresh database records exactly
one physical begin. -/
theorem transaction_reuse_under_nesting_witness :
    physBeginCount (Transaction BHandle.sqlDB (deepAction 3) initState).2.trace =
      physBeginCount initState.trace + 1 :=
  transaction_reuse_under_nesting.2.2 3 initState rfl

/-- Claim C3 (classification in the orchestrator): the wrapper `Transaction`
constructs around the begin-returned resource is the Nested one exactly when
the supplied handle is itself a Nestable or Nested wrapper, and the Nestable
one for every other handle kind, including a raw pool handle and a Root
wrapper; the wrapper the action receives is exactly this constructed one. -/
theorem classification_in_orchestrator (db : BHandle) (impl : Nat) :
    ((mkWrapper db impl = Transactor.nestedT impl) ↔
      ((∃ k, db = BHandle.trans (Transactor.nestableT k)) ∨
       (∃ k, db = BHandle.trans (Transactor.nestedT k)))) ∧
    (mkWrapper db impl = Transactor.nestedT impl ∨
      mkWrapper db impl = Transactor.nestableT impl) ∧
    mkWrapper BHandle.sqlDB impl = Transactor.nestableT impl ∧
    mkWrapper (BHandle.trans Transactor.dbT) impl = Transactor.nestableT impl ∧
    (∀ s s1 i1, BHandle.BeginH db s = (Except.ok i1, s1) →
      (Transaction db probeA s).1 =
        Outcome.ret (some (Transactor.showT (mkWrapper db i1)))) := by
  refine ⟨?_, ?_, rfl, rfl, ?_⟩
  · constructor
    · intro h
      cases db with
      | sqlDB => exact absurd h (by simp [mkWrapper])
      | otherB r => exact absurd h (by simp [mkWrapper])
      | trans t =>
          cases t with
          | dbT => exact absurd h (by simp [mkWrapper])
          | nestableT k => exact Or.inl ⟨k, rfl⟩
          | nestedT k => exact Or.inr ⟨k, rfl⟩
    · rintro (⟨k, rfl⟩ | ⟨k, rfl⟩) <;> rfl
  · cases db with
    | sqlDB => exact Or.inr rfl
    | otherB r => exact Or.inr rfl
    | trans t => cases t with
        | dbT => exact Or.inr rfl
        | nestableT k => exact Or.inl rfl
        | nestedT k => exact Or.inl rfl
  · intro s s1 i1 hb
    simp [Transaction, hb, probeA]

/-- Witness for C3: passing a Nestable wrapper into `Transaction` on a fresh
database hands the action a Nested wrapper over the same transaction. -/
theorem classification_in_orchestrator_witness :
    (Transaction (BHandle.trans (Transactor.nestableT 5)) probeA initState).1 =
      Outcome.ret
        (some (Transactor.showT (mkWrapper (BHandle.trans (Transactor.nestableT 5)) 5))) :=
  (classification_in_orchestrator (BHandle.trans (Transactor.nestableT 5)) 5).2.2.2.2
    initState initState 5 rfl

/-- Claim C4 (panic safety): when begin succeeds and the action panics with
a non-nil value, `Transaction` re-panics with the identical value after
performing exactly one rollback of the begin-returned transaction; no commit
happens and the rollback's own error (whatever `rollbackErr` is) is not
surfaced. -/
theorem panic_safety (db : BHandle) (action : Action) (s : DBState) (impl : Nat)
    (s1 : DBState) (v : GoAny) (s2 : DBState)
    (hb : BHandle.BeginH db s = (Except.ok impl, s1))
    (ha : action (mkWrapper db impl) s1 = (Outcome.panicked v, s2))
    (hv : v ≠ GoAny.nilV) :
    Transaction db action s =
      (Outcome.panicked v, { s2 with trace := s2.trace ++ [Event.pRollback impl] }) := by
  simp [Transaction, hb, ha, hv, Rollback_mkWrapper, physRollback]

/-- Witness for C4: a panicking action on a database whose rollback fails
still re-panics with the same value, with exactly one rollback recorded. -/
theorem panic_safety_witness :
    Transaction BHandle.sqlDB (fun _ s => (Outcome.panicked (GoAny.str "boom"), s))
        rbErrState =
      (Outcome.panicked (GoAny.str "boom"),
        { rbErrState1 with trace := rbErrState1.trace ++ [Event.pRollback 0] }) :=
  panic_safety BHandle.sqlDB _ rbErrState 0 rbErrState1 (GoAny.str "boom") rbErrState1
    rfl rfl (by decide)

/-- Claim C5 (action-error path): when begin succeeds and the action returns
a non-nil error, `Transaction` rolls the begin-returned transaction back
exactly once, never commits, and returns the action's original error
unchanged, discarding the rollback's own error. -/
theorem action_error_path (db : BHandle) (action : Action) (s : DBState) (impl : Nat)
    (s1 : DBState) (err : String) (s2 : DBState)
    (hb : BHandle.BeginH db s = (Except.ok impl, s1))
    (ha : action (mkWrapper db impl) s1 = (Outcome.ret (some err), s2)) :
    Transaction db action s =
      (Outcome.ret (some err), { s2 with trace := s2.trace ++ [Event.pRollback impl] }) := by
  simp [Transaction, hb, ha, Rollback_mkWrapper, physRollback]

/-- Witness for C5: an action returning an error on a database whose
rollback fails still yields the original error, with one rollback
recorded. -/
theorem action_error_path_witness :
    Transaction BHandle.sqlDB (fun _ s => (Outcome.ret (some "bad data"), s)) rbErrState =
      (Outcome.ret (some "bad data"),
        { rbErrState1 with trace := rbErrState1.trace ++ [Event.pRollback 0] }) :=
  action_error_path BHandle.sqlDB _ rbErrState 0 rbErrState1 "bad data" rbErrState1 rfl rfl

/-- Claim C6 (success path on a pool-level handle): on a raw pool handle or
a Root wrapper whose begin succeeds, a nil-returning action leads to exactly
one physical commit and `Transaction` returns the commit's error (nil on
success); an error-returning action leads to exactly one physical rollback,
so no real transaction is left open afterward. -/
theorem success_path_pool (db : BHandle) (action : Action) (s : DBState) (impl : Nat)
    (s1 : DBState)
    (hdb : db = BHandle.sqlDB ∨ db = BHandle.trans Transactor.dbT)
    (hb : BHandle.BeginH db s = (Except.ok impl, s1)) :
    (∀ s2, action (Transactor.nestableT impl) s1 = (Outcome.ret none, s2) →
      Transaction db action s =
        (Outcome.ret s2.commitErr, { s2 with trace := s2.trace ++ [Event.pCommit impl] })) ∧
    (∀ err s2, action (Transactor.nestableT impl) s1 = (Outcome.ret (some err), s2) →
      Transaction db action s =
        (Outcome.ret (some err),
          { s2 with trace := s2.trace ++ [Event.pRollback impl] })) := by
  rcases hdb with rfl | rfl
  · refine ⟨fun s2 ha => ?_, fun err s2 ha => ?_⟩
    · simp [Transaction, hb, mkWrapper, ha, Transactor.Commit, physCommit]
    · simp [Transaction, hb, mkWrapper, ha, Transactor.Rollback, physRollback]
  · refine ⟨fun s2 ha => ?_, fun err s2 ha => ?_⟩
    · simp [Transaction, hb, mkWrapper, ha, Transactor.Commit, physCommit]
    · simp [Transaction, hb, mkWrapper, ha, Transactor.Rollback, physRollback]

/-- Witness for C6: on a fresh database, a nil-returning action commits the
opened transaction exactly once, and an error-returning action rolls it back
exactly once. -/
theorem success_path_pool_witness :
    Transaction BHandle.sqlDB (fun _ s => (Outcome.ret none, s)) initState =
      (Outcome.ret initState1.commitErr,
        { initState1 with trace := initState1.trace ++ [Event.pCommit 0] }) ∧
    Transaction BHandle.sqlDB (fun _ s => (Outcome.ret (some "oops"), s)) initState =
      (Outcome.ret (some "oops"),
        { initState1 with trace := initState1.trace ++ [Event.pRollback 0] }) :=
  ⟨(success_path_pool BHandle.sqlDB _ initState 0 initState1 (Or.inl rfl) rfl).1
      initState1 rfl,
   (success_path_pool BHandle.sqlDB _ initState 0 initState1 (Or.inl rfl) rfl).2
      "oops" initState1 rfl⟩

/-- Claim C7 (begin-failure atomicity): when `Begin` on the handle fails,
`Transaction` returns that error immediately with the post-begin state
unchanged otherwise — no commit or rollback — and the result does not depend
on the action at all (the action is never invoked). -/
theorem begin_failure_atomicity (db : BHandle) (action : Action) (s : DBState)
    (e : String) (s1 : DBState)
    (hb : BHandle.BeginH db s = (Except.error e, s1)) :
    Transaction db action s = (Outcome.ret (some e), s1) ∧
    (∀ action2 : Action, Transaction db action s = Transaction db action2 s) := by
  constructor
  · simp [Transaction, hb]
  · intro action2
    simp [Transaction, hb]

/-- Witness for C7: a database whose begin fails makes `Transaction` return
the begin error with only the failed begin attempt recorded. -/
theorem begin_failure_atomicity_witness :
    Transaction BHandle.sqlDB (fun _ s => (Outcome.ret none, s)) beginErrState =
      (Outcome.ret (some "db down"),
        { beginErrState with trace := [Event.pBeginFail] }) :=
  (begin_failure_atomicity BHandle.sqlDB _ beginErrState "db down"
      { beginErrState with trace := [Event.pBeginFail] } rfl).1

/-- Claim C8 (factory classification): `NewTransactor` returns a Root
wrapper for a pool handle, a Nestable wrapper for a raw transaction handle,
and for every other dynamic kind — including a Root wrapper and a Nestable
wrapper the factory itself produced — it aborts unconditionally (panics)
with the unsupported-type message rather than returning an error value. -/
theorem factory_classification (tx : Nat) (name : String) :
    NewTransactor EHandle.sqlDB = FactoryResult.ok Transactor.dbT ∧
    NewTransactor (EHandle.sqlTx tx) = FactoryResult.ok (Transactor.nestableT tx) ∧
    NewTransactor EHandle.dbT =
      FactoryResult.panicked "unsupported transactor type: *sx.dbTransactor" ∧
    NewTransactor (EHandle.nestableT tx) =
      FactoryResult.panicked "unsupported transactor type: *sx.nestableTransactor" ∧
    NewTransactor (EHandle.otherE name) =
      FactoryResult.panicked ("unsupported transactor type: " ++ name) :=
  ⟨rfl, rfl, rfl, rfl, rfl⟩

/-- Claim C9 (idempotence of factory classification on Nested wrappers):
applying `NewTransactor` to a Nested wrapper yields another Nested wrapper —
never a Root or Nestable one — over the exact same underlying
transaction. -/
theorem factory_idempotent_on_nested (tx : Nat) :
    NewTransactor (EHandle.nestedT tx) = FactoryResult.ok (Transactor.nestedT tx) :=
  rfl

/-- Claim C10 (nil-panic edge case): when begin succeeds and the action
panics with a nil value, the deferred guard's non-nil check does not fire
(pre-Go-1.21 `recover` semantics): no rollback and no commit happens, the
panic does not propagate, and `Transaction` returns a nil error with the
underlying transaction left open. -/
theorem nil_panic_edge (db : BHandle) (action : Action) (s : DBState) (impl : Nat)
    (s1 : DBState) (s2 : DBState)
    (hb : BHandle.BeginH db s = (Except.ok impl, s1))
    (ha : action (mkWrapper db impl) s1 = (Outcome.panicked GoAny.nilV, s2)) :
    Transaction db action s = (Outcome.ret none, s2) := by
  simp [Transaction, hb, ha]

/-- Witness for C10: an action panicking with nil on a fresh database makes
`Transaction` return nil with the physical transaction still open (only the
begin is in the trace). -/
theorem nil_panic_edge_witness :
    Transaction BHandle.sqlDB (fun _ s => (Outcome.panicked GoAny.nilV, s)) initState =
      (Outcome.ret none, initState1) :=
  nil_panic_edge BHandle.sqlDB _ initState 0 initState1 initState1 rfl rfl

end Sx
